import Mathlib

/-!
# Memory card game engine: shallow embedding and verification

This file embeds the state engine of the memory card game
(`script.js`: class `MemoryGame`) in Lean and proves properties of its
deck construction, shuffle, match resolution, scoring, timing and
leaderboard logic.

Conventions of the embedding:
* JS numbers used as counters and millisecond timestamps are `Nat`
  (they stay small and non-negative in the program); quantities that the
  code can drive below zero (the countdown `this.timeLimit`) are `Int`;
  fractional arithmetic in the scoring formula is `Rat`.
* The DOM, the Web Audio API and `localStorage` are external
  collaborators: sounds are modelled as emitted `Signal`s, the displayed
  timer/score texts as fields of the state, `setTimeout` scheduling as a
  returned `ScheduledTask`, and the persisted blob / `JSON.parse` as
  explicit parameters.
* `Date.now()` is passed in as a `now : Nat` argument wherever the code
  samples the clock.
-/

namespace MemoryGame

/-- A card of the deck (`this.cards` entries created in `shuffleCards`). -/
structure Card where
  id : Nat
  symbol : String
  isFlipped : Bool
  isMatched : Bool
deriving Repr, DecidableEq

/-- One entry of `this.leaderboard` (built in `saveToLeaderboard`). -/
structure LeaderboardEntry where
  score : Int
  time : String
  moves : Nat
  difficulty : String
  date : String
deriving Repr, DecidableEq

/-- One difficulty preset of `this.difficultyConfigs`. -/
structure DifficultyConfig where
  gridSize : Nat
  pairs : Nat
  timeLimit : Nat
  symbols : List String
deriving Repr, DecidableEq

/-- The `easy` preset of `this.difficultyConfigs`. -/
def easyConfig : DifficultyConfig :=
  { gridSize := 4, pairs := 8, timeLimit := 300,
    symbols := ["🎯", "🎲", "🎪", "🎨", "🎭", "🎮", "🎵", "🎸"] }

/-- The `medium` preset of `this.difficultyConfigs`. -/
def mediumConfig : DifficultyConfig :=
  { gridSize := 4, pairs := 8, timeLimit := 240,
    symbols := ["🎯", "🎲", "🎪", "🎨", "🎭", "🎮", "🎵", "🎸"] }

/-- The `hard` preset of `this.difficultyConfigs`. -/
def hardConfig : DifficultyConfig :=
  { gridSize := 6, pairs := 18, timeLimit := 300,
    symbols := ["🎯", "🎲", "🎪", "🎨", "🎭", "🎮", "🎵", "🎸", "🎺",
                "🎻", "🥁", "🎤", "🎧", "🎬", "🎹", "🎼", "🎶", "🐱"] }

/-- Property lookup `this.difficultyConfigs[name]`: a JS object access,
which yields `undefined` (here `none`) for any name other than the three
keys. -/
def difficultyConfigs (name : String) : Option DifficultyConfig :=
  if name = "easy" then some easyConfig
  else if name = "medium" then some mediumConfig
  else if name = "hard" then some hardConfig
  else none

/-- The pair-building loop of `shuffleCards`:
`for (i = 0; i < config.pairs; i++)` push `symbols[i % symbols.length]`
twice.  `k` is the number of iterations left and `i` the current loop
index. -/
def pairUp (symbols : List String) : Nat → Nat → List String
  | 0, _ => []
  | k + 1, i =>
      let s := symbols.getD (i % symbols.length) ""
      s :: s :: pairUp symbols k (i + 1)

/-- `cardPairs` as built by the first loop of `shuffleCards`. -/
def buildPairs (config : DifficultyConfig) : List String :=
  pairUp config.symbols config.pairs 0

/-- The destructuring swap
`[cardPairs[i], cardPairs[j]] = [cardPairs[j], cardPairs[i]]`.
Both indices are in range whenever the code executes it. -/
def swapAt (l : List α) (i j : Nat) : List α :=
  match l[i]?, l[j]? with
  | some a, some b => (l.set i b).set j a
  | _, _ => l

/-- The Fisher–Yates loop of `shuffleCards`, with the successive random
draws `Math.floor(Math.random() * (i + 1))` made explicit as the list
`js` (first element used at `i = length - 1`). -/
def fyRun (l : List α) : Nat → List Nat → List α
  | 0, _ => l
  | _ + 1, [] => l
  | k + 1, j :: rest => fyRun (swapAt l (k + 1) j) k rest

/-- `shuffleCards`' Fisher–Yates shuffle of a list, parameterised by the
draw sequence `js`. -/
def fisherYates (l : List α) (js : List Nat) : List α :=
  fyRun l (l.length - 1) js

/-- `cardPairs.map((symbol, index) => ({id: index, symbol, ...}))`,
creating cards with sequential ids starting at `k`. -/
def buildCardsFrom (k : Nat) : List String → List Card
  | [] => []
  | s :: ss => { id := k, symbol := s, isFlipped := false, isMatched := false }
                 :: buildCardsFrom (k + 1) ss

/-- The final card list built at the end of `shuffleCards`. -/
def buildCards (symbols : List String) : List Card :=
  buildCardsFrom 0 symbols

/-- `shuffleCards` for a given config and draw sequence: build the pair
list, Fisher–Yates shuffle it, then wrap each symbol in a card whose id
is its final position. -/
def shuffledDeck (config : DifficultyConfig) (js : List Nat) : List Card :=
  buildCards (fisherYates (buildPairs config) js)

/-- The mutable session state of a `MemoryGame` instance.  `flippedCards`
holds the positions (equal to the ids) of the cards pushed on
`this.flippedCards`; `timersRunning` models whether the two `setInterval`
handles are live; `timerText` and `score` model the texts of the timer
and score DOM displays that the code reads back. -/
structure GameState where
  cards : List Card
  flippedCards : List Nat
  matchedPairs : Nat
  moves : Nat
  startTime : Option Nat
  gameActive : Bool
  gamePaused : Bool
  pauseStartTime : Option Nat
  totalPauseTime : Nat
  currentDifficulty : String
  timeLimit : Option Int
  timersRunning : Bool
  timerText : String
  score : Int
  leaderboard : List LeaderboardEntry
deriving Repr, DecidableEq

/-- Sounds played through `playSound` and the moves-display update;
the observable side effects a flip request can emit synchronously. -/
inductive Signal where
  | flipSound
  | matchSound
  | completeSound
  | movesChanged
deriving Repr, DecidableEq

/-- A `setTimeout` callback scheduled by `checkForMatch`, with the two
captured card positions and the delay in milliseconds. -/
inductive ScheduledTask where
  | resolveMatch (i j delay : Nat)
  | flipBack (i j delay : Nat)
deriving Repr, DecidableEq

/-- Result of a flip request: the new state, the synchronously emitted
signals, and the callback `checkForMatch` scheduled (if any). -/
structure FlipResult where
  state : GameState
  signals : List Signal
  scheduled : Option ScheduledTask
deriving Repr, DecidableEq

/-- Replace the card at position `i` by `f` of it (mutation of a card
object reached through `this.cards` / a captured reference). -/
def modifyCard (f : Card → Card) : List Card → Nat → List Card
  | [], _ => []
  | c :: cs, 0 => f c :: cs
  | c :: cs, n + 1 => c :: modifyCard f cs n

/-- `startTimeLimit`: re-reads the config and resets the countdown
counter `this.timeLimit` to the full limit before starting the interval.
(With an unknown difficulty the JS would throw on `config.timeLimit`;
that path is never reached from a valid session.) -/
def startTimeLimit (st : GameState) : GameState :=
  match difficultyConfigs st.currentDifficulty with
  | some config => { st with timeLimit := some (config.timeLimit : Int) }
  | none => st

/-- `startGame`: on an inactive session, mark active, record
`startTime = Date.now()` and start both intervals (`startTimer` and
`startTimeLimit`). -/
def startGame (st : GameState) (now : Nat) : GameState :=
  if st.gameActive then st
  else startTimeLimit { st with gameActive := true, startTime := some now,
                                timersRunning := true }

/-- `stopTimer`: clear both intervals. -/
def stopTimer (st : GameState) : GameState :=
  { st with timersRunning := false }

/-- `flipBackDelay` selection in `checkForMatch`: 1000ms for easy, 600ms
for hard, 750ms otherwise. -/
def flipBackDelay (difficulty : String) : Nat :=
  if difficulty = "easy" then 1000
  else if difficulty = "hard" then 600
  else 750

/-- The symbol of the card at position `k` (reading
`this.flippedCards[n].card.symbol`). -/
def symbolAt (cards : List Card) (k : Nat) : Option String :=
  (cards[k]?).map Card.symbol

/-- `flipCard(cardElement, card)`.  Note the source order: `startGame`
runs first whenever the session is inactive, *before* the pause check and
the rejection checks, so even a rejected flip can start the session. -/
def flipCard (st : GameState) (i : Nat) (now : Nat) : FlipResult :=
  let st1 := if st.gameActive then st else startGame st now
  if st1.gamePaused then ⟨st1, [], none⟩
  else
    match st1.cards[i]? with
    | none => ⟨st1, [], none⟩
    | some card =>
      if card.isFlipped || card.isMatched || 2 ≤ st1.flippedCards.length then
        ⟨st1, [], none⟩
      else
        let cards := modifyCard (fun c => { c with isFlipped := true }) st1.cards i
        match st1.flippedCards with
        | [] => ⟨{ st1 with cards := cards, flippedCards := [i] },
                 [Signal.flipSound], none⟩
        | [f0] =>
            let st2 := { st1 with cards := cards, flippedCards := [f0, i],
                                  moves := st1.moves + 1 }
            if symbolAt cards f0 = symbolAt cards i then
              ⟨st2, [Signal.flipSound, Signal.movesChanged, Signal.matchSound],
               some (ScheduledTask.resolveMatch f0 i 500)⟩
            else
              ⟨st2, [Signal.flipSound, Signal.movesChanged],
               some (ScheduledTask.flipBack f0 i
                       (flipBackDelay st1.currentDifficulty))⟩
        | _ => ⟨st1, [], none⟩

/-- `checkHighScore(score)`: fewer than 5 entries, or strictly above the
last entry's score (`this.leaderboard[this.leaderboard.length - 1]`). -/
def checkHighScore (lb : List LeaderboardEntry) (score : Int) : Bool :=
  if lb.length < 5 then true
  else
    match lb.getLast? with
    | some e => score > e.score
    | none => false

/-- The comparator `(a, b) => b.score - a.score` passed to the (stable)
`Array.prototype.sort`: `a` stays before `b` when `a.score ≥ b.score`. -/
def scoreDescBool (a b : LeaderboardEntry) : Bool :=
  b.score ≤ a.score

/-- `saveToLeaderboard`'s list update: push the entry, stable-sort by
descending score, keep the top 5 (the persisted value). -/
def saveToLeaderboard (lb : List LeaderboardEntry) (e : LeaderboardEntry) :
    List LeaderboardEntry :=
  ((lb ++ [e]).mergeSort scoreDescBool).take 5

/-- The arithmetic of `updateScore`: raw wall-clock elapsed seconds
since `startTime` (NOT pause-adjusted), time bonus, move bonus, and the
`Math.floor` of the sum. -/
def computeScore (config : DifficultyConfig)
    (matchedPairs moves startTime now : Nat) : Int :=
  let timeElapsed : ℚ := ((now : ℚ) - (startTime : ℚ)) / 1000
  let timeBonus : ℚ := max 0 ((config.timeLimit : ℚ) - timeElapsed)
  let moveBonus : ℚ := max 0 ((config.pairs : ℚ) * 2 - (moves : ℚ))
  Rat.floor ((matchedPairs : ℚ) * 100 + timeBonus + moveBonus)

/-- `updateScore`: recompute the score from the current counters and the
clock, and write it to the score display.  A `null` start time coerces
to 0 in the JS arithmetic. -/
def updateScore (st : GameState) (now : Nat) : GameState :=
  match difficultyConfigs st.currentDifficulty with
  | some config =>
      { st with score := computeScore config st.matchedPairs st.moves
                           (st.startTime.getD 0) now }
  | none => st

/-- `endGame(timeUp)`: deactivate, stop both intervals, then read the
displayed score back and, if `checkHighScore` approves, push the entry
(built from the displayed time, the move counter, the difficulty and
`new Date().toLocaleDateString()`, passed in as `date`). -/
def endGame (st : GameState) (date : String) : GameState :=
  let st1 := stopTimer { st with gameActive := false }
  let entry : LeaderboardEntry :=
    { score := st1.score, time := st1.timerText, moves := st1.moves,
      difficulty := st1.currentDifficulty, date := date }
  if checkHighScore st1.leaderboard st1.score then
    { st1 with leaderboard := saveToLeaderboard st1.leaderboard entry }
  else st1

/-- The match branch of `checkForMatch`'s `setTimeout` callback, firing
with the two captured card references (positions `i`, `j`): mark both
matched, bump `matchedPairs`, clear `flippedCards`, recompute the score,
and end the game when all pairs are matched. -/
def matchCallback (st : GameState) (i j : Nat) (now : Nat) (date : String) :
    GameState :=
  let cards := modifyCard (fun c => { c with isMatched := true })
                 (modifyCard (fun c => { c with isMatched := true }) st.cards i) j
  let st1 := updateScore { st with cards := cards,
                                   matchedPairs := st.matchedPairs + 1,
                                   flippedCards := [] } now
  match difficultyConfigs st1.currentDifficulty with
  | some config => if st1.matchedPairs = config.pairs then endGame st1 date else st1
  | none => st1

/-- The no-match branch of `checkForMatch`'s `setTimeout` callback:
flip both captured cards back down and clear `flippedCards`. -/
def noMatchCallback (st : GameState) (i j : Nat) : GameState :=
  { st with
    cards := modifyCard (fun c => { c with isFlipped := false })
               (modifyCard (fun c => { c with isFlipped := false }) st.cards i) j,
    flippedCards := [] }

/-- `padStart(2, '0')` of a decimal rendering. -/
def pad2 (n : Int) : String :=
  let s := toString n
  if s.length < 2 then "0" ++ s else s

/-- The `MM:SS` string written by `startTimer`'s interval callback from
an elapsed-milliseconds value (JS `%` keeps the dividend's sign, i.e.
truncated remainder; `Math.floor` of a quotient is floor division). -/
def formatTime (elapsedMs : Int) : String :=
  let minutes := Int.fdiv elapsedMs 60000
  let seconds := Int.fdiv (Int.tmod elapsedMs 60000) 1000
  pad2 minutes ++ ":" ++ pad2 seconds

/-- `startTimer`'s interval callback: recompute the pause-adjusted
elapsed time and rewrite the timer display.  It only fires while the
interval is live. -/
def timerTick (st : GameState) (now : Nat) : GameState :=
  if st.timersRunning then
    let elapsed : Int := (now : Int) - ((st.startTime.getD 0 : Nat) : Int)
                           - (st.totalPauseTime : Int)
    { st with timerText := formatTime elapsed }
  else st

/-- `startTimeLimit`'s interval callback: `this.timeLimit--`, ending the
game with `timeUp = true` at zero.  It only fires while the interval is
live, which implies `startTimeLimit` has initialised the counter. -/
def timeLimitTick (st : GameState) (date : String) : GameState :=
  if st.timersRunning then
    match st.timeLimit with
    | some t =>
        let st1 := { st with timeLimit := some (t - 1) }
        if t - 1 ≤ 0 then endGame st1 date else st1
    | none => st
  else st

/-- `pauseGame`: only from an active, unpaused session; record
`pauseStartTime = Date.now()` and stop both intervals. -/
def pauseGame (st : GameState) (now : Nat) : GameState :=
  if !st.gameActive || st.gamePaused then st
  else stopTimer { st with gamePaused := true, pauseStartTime := some now }

/-- `resumeGame`: only while paused; accumulate
`Date.now() - pauseStartTime` into `totalPauseTime`, clear
`pauseStartTime`, then restart both intervals (`startTimer` and
`startTimeLimit` — the latter re-reads the config and RESETS the
countdown counter to the full limit). -/
def resumeGame (st : GameState) (now : Nat) : GameState :=
  if !st.gamePaused then st
  else
    let st1 := { st with gamePaused := false }
    let st2 :=
      match st1.pauseStartTime with
      | some p => { st1 with totalPauseTime := st1.totalPauseTime + (now - p),
                             pauseStartTime := none }
      | none => st1
    startTimeLimit { st2 with timersRunning := true }

/-- `resetStats`: zero the counters, flags and timing fields, reset the
three displays, and clear both intervals.  The deck (`this.cards`) is
not touched. -/
def resetStats (st : GameState) : GameState :=
  stopTimer
    { st with moves := 0, matchedPairs := 0, flippedCards := [],
              gameActive := false, gamePaused := false, startTime := none,
              pauseStartTime := none, totalPauseTime := 0, timeLimit := none,
              timerText := "00:00", score := 0 }

/-- `resetGame`: `resetStats` then re-render the existing grid
(`createCardGrid`) and hide the modal — no reshuffle, the card list is
reused as is. -/
def resetGame (st : GameState) : GameState :=
  resetStats st

/-- `newGame`: `resetStats`, rebuild and reshuffle the deck, re-render.
With an unknown current difficulty `shuffleCards` would throw; the
session keeps the state mutated so far (second component `true`). -/
def newGame (st : GameState) (js : List Nat) : GameState × Bool :=
  let st1 := resetStats st
  match difficultyConfigs st1.currentDifficulty with
  | some config => ({ st1 with cards := shuffledDeck config js }, false)
  | none => (st1, true)

/-- `changeDifficulty(difficulty)`: set `currentDifficulty` FIRST, then
`resetStats`, then `shuffleCards` + re-render.  For an unknown name the
config lookup yields `undefined` and `shuffleCards` throws a `TypeError`
on `config.pairs` — but only after the difficulty field and the stats
were already overwritten; the pair is the state left behind and whether
the request threw. -/
def changeDifficulty (st : GameState) (difficulty : String) (js : List Nat) :
    GameState × Bool :=
  let st1 := resetStats { st with currentDifficulty := difficulty }
  match difficultyConfigs difficulty with
  | some config => ({ st1 with cards := shuffledDeck config js }, false)
  | none => (st1, true)

/-- `loadLeaderboard`:
`saved = localStorage.getItem(key); return saved ? JSON.parse(saved) : []`.
The persistence collaborator returns the blob (`none` = absent), and
`JSON.parse` is the platform parser passed in as `parse` (its exceptions
propagate — there is no `try`/`catch`).  A JS string is falsy exactly
when empty. -/
def loadLeaderboard (blob : Option String)
    (parse : String → Except String (List LeaderboardEntry)) :
    Except String (List LeaderboardEntry) :=
  match blob with
  | none => Except.ok []
  | some s => if s = "" then Except.ok [] else parse s

/-- One engine operation: a flip request, one of the two scheduled
`checkForMatch` callbacks, the two interval ticks, pause, resume, a
direct end of game, reset, new game, or a difficulty change.  Clock
samples (`now`), random draws (`js`) and the date string are carried by
the operation. -/
inductive Op where
  | flipOp (i now : Nat)
  | matchCbOp (i j now : Nat) (date : String)
  | noMatchCbOp (i j : Nat)
  | countdownTickOp (date : String)
  | timerTickOp (now : Nat)
  | pauseOp (now : Nat)
  | resumeOp (now : Nat)
  | endGameOp (date : String)
  | resetOp
  | newGameOp (js : List Nat)
  | changeDifficultyOp (difficulty : String) (js : List Nat)
deriving Repr, DecidableEq

/-- Apply one engine operation to the session state. -/
def applyOp (st : GameState) : Op → GameState
  | Op.flipOp i now => (flipCard st i now).state
  | Op.matchCbOp i j now date => matchCallback st i j now date
  | Op.noMatchCbOp i j => noMatchCallback st i j
  | Op.countdownTickOp date => timeLimitTick st date
  | Op.timerTickOp now => timerTick st now
  | Op.pauseOp now => pauseGame st now
  | Op.resumeOp now => resumeGame st now
  | Op.endGameOp date => endGame st date
  | Op.resetOp => resetGame st
  | Op.newGameOp js => (newGame st js).1
  | Op.changeDifficultyOp difficulty js => (changeDifficulty st difficulty js).1

/-- The pair count of the current difficulty; for an unknown difficulty
name (no config) the bound on `matchedPairs` is vacuous, expressed by
taking `matchedPairs` itself. -/
def pairLimit (st : GameState) : Nat :=
  match difficultyConfigs st.currentDifficulty with
  | some config => config.pairs
  | none => st.matchedPairs

/-- The GameSession invariant of the specification:
at most two face-up cards under evaluation, `matchedPairs` within the
difficulty's pair count, and paused only while active. -/
def Inv (st : GameState) : Prop :=
  st.flippedCards.length ≤ 2 ∧ st.matchedPairs ≤ pairLimit st ∧
    (st.gamePaused = true → st.gameActive = true)

instance (st : GameState) : Decidable (Inv st) := by
  unfold Inv; infer_instance

/-- Whether the operation is a match-resolution callback; such a
callback increments `matchedPairs` unconditionally, so preserving the
pair bound needs `matchedPairs < pairLimit` beforehand. -/
def matchCbGuard (st : GameState) : Op → Prop
  | Op.matchCbOp _ _ _ _ => st.matchedPairs < pairLimit st
  | _ => True

/-- The match callback fired at `st` completes the game (post-increment
`matchedPairs` reaches the configured pair count, triggering
`endGame`). -/
def completesGame (st : GameState) : Prop :=
  match difficultyConfigs st.currentDifficulty with
  | some config => st.matchedPairs + 1 = config.pairs
  | none => False

/-- The countdown tick fired at `st` expires the clock (triggering
`endGame(true)`). -/
def expiresClock (st : GameState) : Prop :=
  st.timersRunning = true ∧ ∃ t, st.timeLimit = some t ∧ t - 1 ≤ 0

/-- Guard excluding the operations that run `endGame` while the session
is paused: `endGame` clears `gameActive` but never clears `gamePaused`,
so those operations break `paused → active`. -/
def pausedEndGuard (st : GameState) : Op → Prop
  | Op.matchCbOp _ _ _ _ => st.gamePaused = true → ¬ completesGame st
  | Op.countdownTickOp _ => st.gamePaused = true → ¬ expiresClock st
  | Op.endGameOp _ => st.gamePaused = false
  | _ => True

/-! ## Lemmas about the deck builder and the shuffle -/

theorem set_cons_perm {α : Type} (t : List α) (k : Nat) (a b : α)
    (h : t[k]? = some b) : (b :: t.set k a).Perm (a :: t) := by
  induction t generalizing k with
  | nil => simp at h
  | cons c t ih =>
      cases k with
      | zero =>
          rw [List.getElem?_cons_zero, Option.some.injEq] at h
          subst h
          rw [List.set_cons_zero]
          exact List.Perm.swap _ _ _
      | succ m =>
          rw [List.getElem?_cons_succ] at h
          rw [List.set_cons_succ]
          exact (List.Perm.swap c b _).trans
            ((List.Perm.cons c (ih m h)).trans (List.Perm.swap a c t))

theorem set_set_swap_perm {α : Type} (l : List α) (i j : Nat) (a b : α)
    (h1 : l[i]? = some a) (h2 : l[j]? = some b) :
    ((l.set i b).set j a).Perm l := by
  induction l generalizing i j with
  | nil => simp at h1
  | cons c t ih =>
      cases i with
      | zero =>
          rw [List.getElem?_cons_zero, Option.some.injEq] at h1
          subst h1
          rw [List.set_cons_zero]
          cases j with
          | zero =>
              rw [List.getElem?_cons_zero, Option.some.injEq] at h2
              subst h2
              rw [List.set_cons_zero]
          | succ k =>
              rw [List.getElem?_cons_succ] at h2
              rw [List.set_cons_succ]
              exact set_cons_perm t k _ _ h2
      | succ m =>
          rw [List.getElem?_cons_succ] at h1
          cases j with
          | zero =>
              rw [List.getElem?_cons_zero, Option.some.injEq] at h2
              subst h2
              rw [List.set_cons_succ, List.set_cons_zero]
              exact set_cons_perm t m _ _ h1
          | succ k =>
              rw [List.getElem?_cons_succ] at h2
              rw [List.set_cons_succ, List.set_cons_succ]
              exact List.Perm.cons c (ih m k h1 h2)

theorem swapAt_perm {α : Type} (l : List α) (i j : Nat) :
    (swapAt l i j).Perm l := by
  unfold swapAt
  cases h1 : l[i]? with
  | none => exact List.Perm.refl l
  | some a =>
      cases h2 : l[j]? with
      | none => exact List.Perm.refl l
      | some b => exact set_set_swap_perm l i j a b h1 h2

theorem fyRun_perm {α : Type} (js : List Nat) (l : List α) (i : Nat) :
    (fyRun l i js).Perm l := by
  induction js generalizing l i with
  | nil => cases i <;> simp [fyRun]
  | cons j rest ih =>
      cases i with
      | zero => simp [fyRun]
      | succ k =>
          simpa [fyRun] using (ih (swapAt l (k + 1) j) k).trans
            (swapAt_perm l (k + 1) j)

theorem fisherYates_perm {α : Type} (l : List α) (js : List Nat) :
    (fisherYates l js).Perm l :=
  fyRun_perm js l (l.length - 1)

theorem pairUp_length (symbols : List String) (k i : Nat) :
    (pairUp symbols k i).length = 2 * k := by
  induction k generalizing i with
  | zero => simp [pairUp]
  | succ k ih => simp [pairUp, ih]; omega

theorem pairUp_getElem? (symbols : List String) (k i n : Nat) :
    (pairUp symbols k i)[n]? =
      if n < 2 * k then some (symbols.getD ((i + n / 2) % symbols.length) "")
      else none := by
  induction k generalizing i n with
  | zero => simp [pairUp]
  | succ k ih =>
      match n with
      | 0 => simp [pairUp]
      | 1 => simp [pairUp]; omega
      | n + 2 =>
          have h2 : (n + 2) / 2 = n / 2 + 1 := by omega
          simp only [pairUp, List.getElem?_cons_succ, ih (i + 1) n, h2]
          have harith : i + 1 + n / 2 = i + (n / 2 + 1) := by omega
          rw [harith]
          by_cases hn : n < 2 * k
          · rw [if_pos hn, if_pos (by omega)]
          · rw [if_neg hn, if_neg (by omega)]

theorem buildCardsFrom_length (k : Nat) (ss : List String) :
    (buildCardsFrom k ss).length = ss.length := by
  induction ss generalizing k with
  | nil => simp [buildCardsFrom]
  | cons s ss ih => simp [buildCardsFrom, ih]

theorem buildCardsFrom_getElem? (k : Nat) (ss : List String) (m : Nat) :
    (buildCardsFrom k ss)[m]? = (ss[m]?).map
      (fun s => { id := k + m, symbol := s, isFlipped := false,
                  isMatched := false : Card }) := by
  induction ss generalizing k m with
  | nil => simp [buildCardsFrom]
  | cons s ss ih =>
      cases m with
      | zero => simp [buildCardsFrom]
      | succ m =>
          simp only [buildCardsFrom, List.getElem?_cons_succ, ih (k + 1) m]
          have : k + 1 + m = k + (m + 1) := by omega
          rw [this]

theorem buildCardsFrom_map_symbol (k : Nat) (ss : List String) :
    (buildCardsFrom k ss).map Card.symbol = ss := by
  induction ss generalizing k with
  | nil => simp [buildCardsFrom]
  | cons s ss ih => simp [buildCardsFrom, ih]

/-- C1: for every difficulty configuration, the pair-building loop
produces exactly `2 * pairCount` entries, the symbol of pair index `m`
being `config.symbols[m % config.symbols.length]` (at positions `2m` and
`2m+1`), and every configured symbol occurs with multiplicity exactly 2;
the Fisher–Yates loop yields a permutation of that pair list for every
draw sequence; and the final deck assigns sequential ids `0..length-1`
by final position, its symbols being exactly the shuffled list. -/
theorem C1_deck_build_and_shuffle :
    ∀ (name : String) (config : DifficultyConfig) (js : List Nat),
      difficultyConfigs name = some config →
      (buildPairs config).length = 2 * config.pairs
      ∧ (∀ m, m < config.pairs →
           (buildPairs config)[2 * m]? =
             some (config.symbols.getD (m % config.symbols.length) "")
           ∧ (buildPairs config)[2 * m + 1]? =
             some (config.symbols.getD (m % config.symbols.length) ""))
      ∧ (∀ s, s ∈ config.symbols → (buildPairs config).count s = 2)
      ∧ (fisherYates (buildPairs config) js).Perm (buildPairs config)
      ∧ ((shuffledDeck config js).map Card.symbol).Perm (buildPairs config)
      ∧ (shuffledDeck config js).length = 2 * config.pairs
      ∧ (∀ k, ((shuffledDeck config js)[k]?).map Card.id =
           if k < (shuffledDeck config js).length then some k else none) := by
  intro name config js h
  have hperm : (fisherYates (buildPairs config) js).Perm (buildPairs config) :=
    fisherYates_perm _ _
  have hmapsym : (shuffledDeck config js).map Card.symbol =
      fisherYates (buildPairs config) js :=
    buildCardsFrom_map_symbol 0 _
  have hlen : (buildPairs config).length = 2 * config.pairs :=
    pairUp_length config.symbols config.pairs 0
  have hdecklen : (shuffledDeck config js).length = 2 * config.pairs := by
    rw [shuffledDeck, buildCards, buildCardsFrom_length, hperm.length_eq, hlen]
  refine ⟨hlen, ?_, ?_, hperm, hmapsym ▸ hperm, hdecklen, ?_⟩
  · intro m hm
    constructor
    · rw [buildPairs, pairUp_getElem? config.symbols config.pairs 0 (2 * m),
          if_pos (by omega)]
      have : (2 * m) / 2 = m := by omega
      rw [this, Nat.zero_add]
    · rw [buildPairs, pairUp_getElem? config.symbols config.pairs 0 (2 * m + 1),
          if_pos (by omega)]
      have : (2 * m + 1) / 2 = m := by omega
      rw [this, Nat.zero_add]
  · unfold difficultyConfigs at h
    split_ifs at h with h1 h2 h3 <;> (injection h with h; subst h; decide)
  · intro k
    have hfylen : (fisherYates (buildPairs config) js).length = 2 * config.pairs := by
      rw [hperm.length_eq, hlen]
    have hbc : (buildCardsFrom 0 (fisherYates (buildPairs config) js)).length
        = 2 * config.pairs := by
      rw [buildCardsFrom_length, hfylen]
    rw [shuffledDeck, buildCards, buildCardsFrom_getElem?, Option.map_map]
    by_cases hk : k < (fisherYates (buildPairs config) js).length
    · rw [List.getElem?_eq_getElem hk, if_pos (by omega)]
      simp
    · rw [List.getElem?_eq_none (by omega), if_neg (by omega)]
      rfl

/-! ## Lemmas about card mutation and state-field preservation -/

theorem modifyCard_length (f : Card → Card) (l : List Card) (i : Nat) :
    (modifyCard f l i).length = l.length := by
  induction l generalizing i with
  | nil => rfl
  | cons c cs ih => cases i <;> simp [modifyCard, ih]

theorem modifyCard_getElem?_self (f : Card → Card) (l : List Card) (i : Nat) :
    (modifyCard f l i)[i]? = (l[i]?).map f := by
  induction l generalizing i with
  | nil => cases i <;> rfl
  | cons c cs ih => cases i <;> simp [modifyCard, ih]

theorem modifyCard_getElem?_ne (f : Card → Card) (l : List Card) (i k : Nat)
    (h : i ≠ k) : (modifyCard f l i)[k]? = l[k]? := by
  induction l generalizing i k with
  | nil => cases i <;> rfl
  | cons c cs ih =>
      cases i with
      | zero => cases k with
        | zero => exact absurd rfl h
        | succ k => simp [modifyCard]
      | succ i =>
          cases k with
          | zero => simp [modifyCard]
          | succ k => simpa [modifyCard] using ih i k (by omega)

theorem symbolAt_modifyCard (f : Card → Card)
    (hf : ∀ c, (f c).symbol = c.symbol) (l : List Card) (i k : Nat) :
    symbolAt (modifyCard f l i) k = symbolAt l k := by
  unfold symbolAt
  by_cases h : i = k
  · subst h
    rw [modifyCard_getElem?_self, Option.map_map]
    cases l[i]? <;> simp [hf]
  · rw [modifyCard_getElem?_ne f l i k h]

@[simp] theorem updateScore_cards (st : GameState) (now : Nat) :
    (updateScore st now).cards = st.cards := by
  unfold updateScore; split <;> rfl

@[simp] theorem updateScore_flippedCards (st : GameState) (now : Nat) :
    (updateScore st now).flippedCards = st.flippedCards := by
  unfold updateScore; split <;> rfl

@[simp] theorem updateScore_matchedPairs (st : GameState) (now : Nat) :
    (updateScore st now).matchedPairs = st.matchedPairs := by
  unfold updateScore; split <;> rfl

@[simp] theorem updateScore_moves (st : GameState) (now : Nat) :
    (updateScore st now).moves = st.moves := by
  unfold updateScore; split <;> rfl

@[simp] theorem updateScore_startTime (st : GameState) (now : Nat) :
    (updateScore st now).startTime = st.startTime := by
  unfold updateScore; split <;> rfl

@[simp] theorem updateScore_gameActive (st : GameState) (now : Nat) :
    (updateScore st now).gameActive = st.gameActive := by
  unfold updateScore; split <;> rfl

@[simp] theorem updateScore_gamePaused (st : GameState) (now : Nat) :
    (updateScore st now).gamePaused = st.gamePaused := by
  unfold updateScore; split <;> rfl

@[simp] theorem updateScore_currentDifficulty (st : GameState) (now : Nat) :
    (updateScore st now).currentDifficulty = st.currentDifficulty := by
  unfold updateScore; split <;> rfl

@[simp] theorem updateScore_timeLimit (st : GameState) (now : Nat) :
    (updateScore st now).timeLimit = st.timeLimit := by
  unfold updateScore; split <;> rfl

@[simp] theorem updateScore_timersRunning (st : GameState) (now : Nat) :
    (updateScore st now).timersRunning = st.timersRunning := by
  unfold updateScore; split <;> rfl

@[simp] theorem updateScore_totalPauseTime (st : GameState) (now : Nat) :
    (updateScore st now).totalPauseTime = st.totalPauseTime := by
  unfold updateScore; split <;> rfl

@[simp] theorem updateScore_leaderboard (st : GameState) (now : Nat) :
    (updateScore st now).leaderboard = st.leaderboard := by
  unfold updateScore; split <;> rfl

@[simp] theorem updateScore_timerText (st : GameState) (now : Nat) :
    (updateScore st now).timerText = st.timerText := by
  unfold updateScore; split <;> rfl

@[simp] theorem startTimeLimit_cards (st : GameState) :
    (startTimeLimit st).cards = st.cards := by
  unfold startTimeLimit; split <;> rfl

@[simp] theorem startTimeLimit_flippedCards (st : GameState) :
    (startTimeLimit st).flippedCards = st.flippedCards := by
  unfold startTimeLimit; split <;> rfl

@[simp] theorem startTimeLimit_matchedPairs (st : GameState) :
    (startTimeLimit st).matchedPairs = st.matchedPairs := by
  unfold startTimeLimit; split <;> rfl

@[simp] theorem startTimeLimit_moves (st : GameState) :
    (startTimeLimit st).moves = st.moves := by
  unfold startTimeLimit; split <;> rfl

@[simp] theorem startTimeLimit_gameActive (st : GameState) :
    (startTimeLimit st).gameActive = st.gameActive := by
  unfold startTimeLimit; split <;> rfl

@[simp] theorem startTimeLimit_gamePaused (st : GameState) :
    (startTimeLimit st).gamePaused = st.gamePaused := by
  unfold startTimeLimit; split <;> rfl

@[simp] theorem startTimeLimit_currentDifficulty (st : GameState) :
    (startTimeLimit st).currentDifficulty = st.currentDifficulty := by
  unfold startTimeLimit; split <;> rfl

@[simp] theorem startTimeLimit_startTime (st : GameState) :
    (startTimeLimit st).startTime = st.startTime := by
  unfold startTimeLimit; split <;> rfl

@[simp] theorem startTimeLimit_totalPauseTime (st : GameState) :
    (startTimeLimit st).totalPauseTime = st.totalPauseTime := by
  unfold startTimeLimit; split <;> rfl

@[simp] theorem startTimeLimit_pauseStartTime (st : GameState) :
    (startTimeLimit st).pauseStartTime = st.pauseStartTime := by
  unfold startTimeLimit; split <;> rfl

@[simp] theorem startTimeLimit_timersRunning (st : GameState) :
    (startTimeLimit st).timersRunning = st.timersRunning := by
  unfold startTimeLimit; split <;> rfl

@[simp] theorem startGame_cards (st : GameState) (now : Nat) :
    (startGame st now).cards = st.cards := by
  unfold startGame; split <;> simp

@[simp] theorem startGame_flippedCards (st : GameState) (now : Nat) :
    (startGame st now).flippedCards = st.flippedCards := by
  unfold startGame; split <;> simp

@[simp] theorem startGame_gamePaused (st : GameState) (now : Nat) :
    (startGame st now).gamePaused = st.gamePaused := by
  unfold startGame; split <;> simp

@[simp] theorem startGame_matchedPairs (st : GameState) (now : Nat) :
    (startGame st now).matchedPairs = st.matchedPairs := by
  unfold startGame; split <;> simp

@[simp] theorem startGame_moves (st : GameState) (now : Nat) :
    (startGame st now).moves = st.moves := by
  unfold startGame; split <;> simp

@[simp] theorem startGame_currentDifficulty (st : GameState) (now : Nat) :
    (startGame st now).currentDifficulty = st.currentDifficulty := by
  unfold startGame; split <;> simp

theorem updateScore_score (st : GameState) (now : Nat)
    (config : DifficultyConfig)
    (h : difficultyConfigs st.currentDifficulty = some config) :
    (updateScore st now).score =
      computeScore config st.matchedPairs st.moves (st.startTime.getD 0) now := by
  unfold updateScore
  rw [h]

@[simp] theorem endGame_cards (st : GameState) (date : String) :
    (endGame st date).cards = st.cards := by
  simp only [endGame, stopTimer]; split_ifs <;> rfl

@[simp] theorem endGame_flippedCards (st : GameState) (date : String) :
    (endGame st date).flippedCards = st.flippedCards := by
  simp only [endGame, stopTimer]; split_ifs <;> rfl

@[simp] theorem endGame_matchedPairs (st : GameState) (date : String) :
    (endGame st date).matchedPairs = st.matchedPairs := by
  simp only [endGame, stopTimer]; split_ifs <;> rfl

@[simp] theorem endGame_moves (st : GameState) (date : String) :
    (endGame st date).moves = st.moves := by
  simp only [endGame, stopTimer]; split_ifs <;> rfl

@[simp] theorem endGame_score (st : GameState) (date : String) :
    (endGame st date).score = st.score := by
  simp only [endGame, stopTimer]; split_ifs <;> rfl

@[simp] theorem endGame_gamePaused (st : GameState) (date : String) :
    (endGame st date).gamePaused = st.gamePaused := by
  simp only [endGame, stopTimer]; split_ifs <;> rfl

@[simp] theorem endGame_currentDifficulty (st : GameState) (date : String) :
    (endGame st date).currentDifficulty = st.currentDifficulty := by
  simp only [endGame, stopTimer]; split_ifs <;> rfl

@[simp] theorem endGame_startTime (st : GameState) (date : String) :
    (endGame st date).startTime = st.startTime := by
  simp only [endGame, stopTimer]; split_ifs <;> rfl

@[simp] theorem endGame_pauseStartTime (st : GameState) (date : String) :
    (endGame st date).pauseStartTime = st.pauseStartTime := by
  simp only [endGame, stopTimer]; split_ifs <;> rfl

@[simp] theorem endGame_totalPauseTime (st : GameState) (date : String) :
    (endGame st date).totalPauseTime = st.totalPauseTime := by
  simp only [endGame, stopTimer]; split_ifs <;> rfl

@[simp] theorem endGame_timeLimit (st : GameState) (date : String) :
    (endGame st date).timeLimit = st.timeLimit := by
  simp only [endGame, stopTimer]; split_ifs <;> rfl

@[simp] theorem endGame_timerText (st : GameState) (date : String) :
    (endGame st date).timerText = st.timerText := by
  simp only [endGame, stopTimer]; split_ifs <;> rfl

@[simp] theorem endGame_gameActive (st : GameState) (date : String) :
    (endGame st date).gameActive = false := by
  simp only [endGame, stopTimer]; split_ifs <;> rfl

@[simp] theorem endGame_timersRunning (st : GameState) (date : String) :
    (endGame st date).timersRunning = false := by
  simp only [endGame, stopTimer]; split_ifs <;> rfl

/-- C2: resolving an evaluated pair.  With equal symbols the deferred
match callback marks both cards matched, increments `matchedPairs` by
exactly one, clears `flippedCards`, recomputes the score, and ends the
game (deactivating the session) when all pairs are matched; with
differing symbols the deferred flip-back callback resets both cards'
`isFlipped`, clears `flippedCards`, and leaves `moves`, `matchedPairs`
and both cards' `isMatched` unchanged.  The scheduled delays are 500ms
for a match and `flipBackDelay` for a mismatch, with easy = 1000ms,
medium = 750ms, hard = 600ms. -/
theorem C2_pair_evaluation :
    (∀ (st : GameState) (i j now : Nat) (date : String)
        (config : DifficultyConfig) (ci cj : Card),
        difficultyConfigs st.currentDifficulty = some config →
        st.cards[i]? = some ci → st.cards[j]? = some cj → i ≠ j →
        ci.symbol = cj.symbol →
        ((matchCallback st i j now date).cards[i]?).map Card.isMatched = some true
        ∧ ((matchCallback st i j now date).cards[j]?).map Card.isMatched = some true
        ∧ (matchCallback st i j now date).matchedPairs = st.matchedPairs + 1
        ∧ (matchCallback st i j now date).flippedCards = []
        ∧ (matchCallback st i j now date).score =
            computeScore config (st.matchedPairs + 1) st.moves
              (st.startTime.getD 0) now
        ∧ (st.matchedPairs + 1 = config.pairs →
            (matchCallback st i j now date).gameActive = false))
    ∧ (∀ (st : GameState) (i j : Nat) (ci cj : Card),
        st.cards[i]? = some ci → st.cards[j]? = some cj → i ≠ j →
        ((noMatchCallback st i j).cards[i]?).map Card.isFlipped = some false
        ∧ ((noMatchCallback st i j).cards[j]?).map Card.isFlipped = some false
        ∧ (noMatchCallback st i j).flippedCards = []
        ∧ (noMatchCallback st i j).moves = st.moves
        ∧ (noMatchCallback st i j).matchedPairs = st.matchedPairs
        ∧ ((noMatchCallback st i j).cards[i]?).map Card.isMatched = some ci.isMatched
        ∧ ((noMatchCallback st i j).cards[j]?).map Card.isMatched = some cj.isMatched)
    ∧ (∀ (st : GameState) (i now f0 : Nat) (card : Card),
        st.gameActive = true → st.gamePaused = false →
        st.flippedCards = [f0] → st.cards[i]? = some card →
        card.isFlipped = false → card.isMatched = false →
        (symbolAt st.cards f0 = symbolAt st.cards i →
           (flipCard st i now).scheduled =
             some (ScheduledTask.resolveMatch f0 i 500))
        ∧ (symbolAt st.cards f0 ≠ symbolAt st.cards i →
           (flipCard st i now).scheduled =
             some (ScheduledTask.flipBack f0 i
                     (flipBackDelay st.currentDifficulty))))
    ∧ flipBackDelay "easy" = 1000 ∧ flipBackDelay "medium" = 750
    ∧ flipBackDelay "hard" = 600 := by
  refine ⟨?_, ?_, ?_, by decide, by decide, by decide⟩
  · intro st i j now date config ci cj hcfg hi hj hij _hsym
    unfold matchCallback
    simp only [updateScore_currentDifficulty]
    rw [hcfg]
    simp only []
    have hne : j ≠ i := fun h => hij h.symm
    split_ifs with hcomp
    · refine ⟨?_, ?_, by simp, by simp, ?_, fun _ => by simp⟩
      · simp only [endGame_cards, updateScore_cards]
        rw [modifyCard_getElem?_ne _ _ j i hne, modifyCard_getElem?_self, hi]
        simp
      · simp only [endGame_cards, updateScore_cards]
        rw [modifyCard_getElem?_self, modifyCard_getElem?_ne _ _ i j hij, hj]
        simp
      · rw [endGame_score, updateScore_score _ _ config (by simpa using hcfg)]
    · refine ⟨?_, ?_, by simp, by simp, ?_,
        fun hc => absurd (by simpa using hc) hcomp⟩
      · simp only [updateScore_cards]
        rw [modifyCard_getElem?_ne _ _ j i hne, modifyCard_getElem?_self, hi]
        simp
      · simp only [updateScore_cards]
        rw [modifyCard_getElem?_self, modifyCard_getElem?_ne _ _ i j hij, hj]
        simp
      · rw [updateScore_score _ _ config (by simpa using hcfg)]
  · intro st i j ci cj hi hj hij
    have hne : j ≠ i := fun h => hij h.symm
    unfold noMatchCallback
    refine ⟨?_, ?_, rfl, rfl, rfl, ?_, ?_⟩ <;> simp only []
    · rw [modifyCard_getElem?_ne _ _ j i hne, modifyCard_getElem?_self, hi]; simp
    · rw [modifyCard_getElem?_self, modifyCard_getElem?_ne _ _ i j hij, hj]; simp
    · rw [modifyCard_getElem?_ne _ _ j i hne, modifyCard_getElem?_self, hi]; simp
    · rw [modifyCard_getElem?_self, modifyCard_getElem?_ne _ _ i j hij, hj]; simp
  · intro st i now f0 card hact hpause hfl hi hnf hnm
    have hsymEq : ∀ k,
        symbolAt (modifyCard (fun c => { c with isFlipped := true }) st.cards i) k
        = symbolAt st.cards k :=
      symbolAt_modifyCard (fun c => { c with isFlipped := true })
        (fun _ => rfl) st.cards i
    unfold flipCard
    rw [hact]
    simp only [if_true]
    rw [hpause]
    simp only [Bool.false_eq_true, if_false, hi, hnf, hnm, hfl]
    simp only [Bool.false_or, List.length_cons, List.length_nil]
    constructor
    · intro hsym
      rw [if_neg (by simp)]
      simp only [hsymEq]
      rw [if_pos hsym]
    · intro hsym
      rw [if_neg (by simp)]
      simp only [hsymEq]
      rw [if_neg hsym]

/-- A small concrete session on the easy difficulty, with the first two
cards face-up and sharing a symbol, used to instantiate C2. -/
def exStC2 : GameState :=
  { cards := [{ id := 0, symbol := "🎯", isFlipped := true, isMatched := false },
              { id := 1, symbol := "🎯", isFlipped := true, isMatched := false },
              { id := 2, symbol := "🎲", isFlipped := false, isMatched := false },
              { id := 3, symbol := "🎲", isFlipped := false, isMatched := false }],
    flippedCards := [0, 1], matchedPairs := 0, moves := 1,
    startTime := some 1000, gameActive := true, gamePaused := false,
    pauseStartTime := none, totalPauseTime := 0, currentDifficulty := "easy",
    timeLimit := some 300, timersRunning := true, timerText := "00:00",
    score := 0, leaderboard := [] }

/-- C2 witness: the match and no-match callbacks and the flip scheduling
evaluated on `exStC2`. -/
theorem C2_pair_evaluation_witness :
    ((matchCallback exStC2 0 1 2000 "d").cards[0]?).map Card.isMatched = some true
    ∧ (matchCallback exStC2 0 1 2000 "d").matchedPairs = 1
    ∧ (noMatchCallback exStC2 0 2).moves = exStC2.moves
    ∧ (flipCard { exStC2 with flippedCards := [0] } 2 2000).scheduled =
        some (ScheduledTask.flipBack 0 2 (flipBackDelay "easy")) :=
  have hm := C2_pair_evaluation.1 exStC2 0 1 2000 "d" easyConfig
    { id := 0, symbol := "🎯", isFlipped := true, isMatched := false }
    { id := 1, symbol := "🎯", isFlipped := true, isMatched := false }
    (by decide) (by decide) (by decide) (by decide) rfl
  have hn := C2_pair_evaluation.2.1 exStC2 0 2
    { id := 0, symbol := "🎯", isFlipped := true, isMatched := false }
    { id := 2, symbol := "🎲", isFlipped := false, isMatched := false }
    (by decide) (by decide) (by decide)
  have hs := C2_pair_evaluation.2.2.1 { exStC2 with flippedCards := [0] }
    2 2000 0 { id := 2, symbol := "🎲", isFlipped := false, isMatched := false }
    rfl rfl rfl (by decide) rfl rfl
  ⟨hm.1, hm.2.2.1, hn.2.2.2.1, hs.2 (by decide)⟩

/-- C3 (amended): a flip request in a rejection case — session paused,
targeted card already flipped or matched, or two cards already face
up — leaves the whole state unchanged, emits no signal and schedules
nothing, PROVIDED the session is active.  From an inactive session the
same rejected request first runs `startGame` (setting the active flag,
`startTime` and both intervals) and only then bails out, leaving
`startGame st now` behind instead of `st`. -/
theorem C3_flip_rejection :
    (∀ (st : GameState) (i now : Nat),
        st.gameActive = true →
        (st.gamePaused = true
         ∨ (∃ c, st.cards[i]? = some c ∧
              (c.isFlipped = true ∨ c.isMatched = true))
         ∨ 2 ≤ st.flippedCards.length) →
        flipCard st i now = ⟨st, [], none⟩)
    ∧ (∀ (st : GameState) (i now : Nat),
        st.gameActive = false →
        (st.gamePaused = true
         ∨ (∃ c, st.cards[i]? = some c ∧
              (c.isFlipped = true ∨ c.isMatched = true))
         ∨ 2 ≤ st.flippedCards.length) →
        flipCard st i now = ⟨startGame st now, [], none⟩) := by
  constructor
  · intro st i now hact hrej
    unfold flipCard
    rw [hact]
    simp only [if_true]
    by_cases hp : st.gamePaused
    · rw [if_pos hp]
    · rw [if_neg hp]
      rcases hrej with hrej | ⟨c, hc, hflag⟩ | hrej
      · exact absurd hrej hp
      · rw [hc]
        simp only []
        rw [if_pos (by rcases hflag with h | h <;> simp [h])]
      · cases hc : st.cards[i]? with
        | none => rfl
        | some c =>
            simp only []
            rw [if_pos (by simp [hrej])]
  · intro st i now hact hrej
    unfold flipCard
    rw [hact]
    simp only [Bool.false_eq_true, if_false]
    by_cases hp : (startGame st now).gamePaused
    · rw [if_pos hp]
    · rw [if_neg hp]
      rcases hrej with hrej | ⟨c, hc, hflag⟩ | hrej
      · rw [startGame_gamePaused] at hp
        exact absurd hrej hp
      · rw [startGame_cards, hc]
        simp only []
        rw [if_pos (by rcases hflag with h | h <;> simp [h])]
      · rw [startGame_cards]
        cases hc : st.cards[i]? with
        | none => rfl
        | some c =>
            simp only []
            rw [if_pos (by simp [hrej])]

/-- A completed-then-reset style session: inactive, unpaused, with an
already matched card at position 0. -/
def exStC3 : GameState :=
  { cards := [{ id := 0, symbol := "🎯", isFlipped := true, isMatched := true },
              { id := 1, symbol := "🎯", isFlipped := true, isMatched := true },
              { id := 2, symbol := "🎲", isFlipped := false, isMatched := false },
              { id := 3, symbol := "🎲", isFlipped := false, isMatched := false }],
    flippedCards := [], matchedPairs := 0, moves := 0,
    startTime := none, gameActive := false, gamePaused := false,
    pauseStartTime := none, totalPauseTime := 0, currentDifficulty := "easy",
    timeLimit := none, timersRunning := false, timerText := "00:00",
    score := 0, leaderboard := [] }

/-- C3 counterexample: from an inactive session, a flip request on an
already matched card is rejected, yet the state changes — the session
is activated, `startTime` is recorded and the countdown initialised —
refuting "in all of these rejection cases no field of the session
(including timers and the active flag) changes". -/
theorem C3_flip_rejection_counterexample :
    exStC3.gameActive = false
    ∧ (exStC3.cards[0]?).map Card.isMatched = some true
    ∧ (flipCard exStC3 0 5000).signals = []
    ∧ (flipCard exStC3 0 5000).state.gameActive = true
    ∧ (flipCard exStC3 0 5000).state.startTime = some 5000
    ∧ (flipCard exStC3 0 5000).state.timersRunning = true
    ∧ (flipCard exStC3 0 5000).state ≠ exStC3 := by
  decide

/-- C3 witness: both parts of the amended statement at concrete
sessions. -/
theorem C3_flip_rejection_witness :
    flipCard { exStC3 with gameActive := true } 0 5000 =
      ⟨{ exStC3 with gameActive := true }, [], none⟩
    ∧ flipCard exStC3 0 5000 = ⟨startGame exStC3 5000, [], none⟩ :=
  ⟨C3_flip_rejection.1 { exStC3 with gameActive := true } 0 5000 rfl
     (Or.inr (Or.inl ⟨_, rfl, Or.inr rfl⟩)),
   C3_flip_rejection.2 exStC3 0 5000 rfl
     (Or.inr (Or.inl ⟨_, rfl, Or.inr rfl⟩))⟩

/-- Modelled from the spec, §4.5: `score = floor(matchedPairs * 100 +
max(0, timeLimitSeconds - elapsedSeconds) + max(0, pairCount*2 -
moves))`, for comparison with the source's `updateScore`. -/
def specScore (timeLimitSeconds elapsedSeconds : ℚ)
    (matchedPairs pairCount moves : Nat) : Int :=
  Rat.floor ((matchedPairs : ℚ) * 100 + max 0 (timeLimitSeconds - elapsedSeconds)
    + max 0 ((pairCount : ℚ) * 2 - (moves : ℚ)))

/-- The easy-difficulty completion scenario: all 8 pairs matched in 16
moves with `startTime = now = 0`. -/
def exStC4 : GameState :=
  { cards := [], flippedCards := [], matchedPairs := 8, moves := 16,
    startTime := some 0, gameActive := true, gamePaused := false,
    pauseStartTime := none, totalPauseTime := 0, currentDifficulty := "easy",
    timeLimit := some 300, timersRunning := true, timerText := "00:00",
    score := 0, leaderboard := [] }

/-- C4: the recomputed score equals the spec's formula
`floor(matchedPairs*100 + max(0, timeLimit - elapsedSeconds) +
max(0, pairCount*2 - moves))` with `elapsedSeconds` the raw wall-clock
time since `startTime`; it does not depend on `totalPauseTime` (not
pause-adjusted); and the easy-difficulty scenario (8 pairs, 16 moves,
0 elapsed seconds) scores 1100. -/
theorem C4_score_formula :
    (∀ (st : GameState) (now : Nat) (config : DifficultyConfig),
        difficultyConfigs st.currentDifficulty = some config →
        (updateScore st now).score =
          specScore (config.timeLimit : ℚ)
            (((now : ℚ) - ((st.startTime.getD 0 : Nat) : ℚ)) / 1000)
            st.matchedPairs config.pairs st.moves
        ∧ (∀ p, (updateScore { st with totalPauseTime := p } now).score =
            (updateScore st now).score))
    ∧ (updateScore exStC4 0).score = 1100 := by
  refine ⟨?_, ?_⟩
  case refine_2 =>
    rw [updateScore_score _ _ easyConfig (by decide)]
    unfold computeScore
    norm_num [exStC4, easyConfig]
    rw [Rat.floor_def']
    norm_num
  case refine_1 =>
    intro st now config h
    constructor
    · rw [updateScore_score _ _ config h]
      rfl
    · intro p
      unfold updateScore
      simp only []
      rw [h]

/-- C4 witness: pause-independence of the score at the scenario state. -/
theorem C4_score_formula_witness :
    (updateScore { exStC4 with totalPauseTime := 77 } 0).score =
      (updateScore exStC4 0).score :=
  (C4_score_formula.1 exStC4 0 easyConfig (by decide)).2 77

/-- Sorted in descending score order (the leaderboard ordering produced
by the `(a, b) => b.score - a.score` comparator). -/
def SortedDesc (lb : List LeaderboardEntry) : Prop :=
  List.Pairwise (fun a b => b.score ≤ a.score) lb

theorem getLast?_mem {α : Type} (l : List α) (e : α)
    (h : l.getLast? = some e) : e ∈ l := by
  induction l with
  | nil => simp at h
  | cons a t ih =>
      cases t with
      | nil => simp at h; subst h; exact List.mem_singleton_self a
      | cons b t' =>
          rw [List.getLast?_cons_cons] at h
          exact List.mem_cons_of_mem a (ih h)

theorem getLast?_of_ne_nil {α : Type} (l : List α) (h : l ≠ []) :
    ∃ e, l.getLast? = some e := by
  induction l with
  | nil => exact absurd rfl h
  | cons a t ih =>
      cases t with
      | nil => exact ⟨a, rfl⟩
      | cons b t' =>
          obtain ⟨e, he⟩ := ih (List.cons_ne_nil b t')
          exact ⟨e, by rw [List.getLast?_cons_cons]; exact he⟩

/-- In a descending-sorted leaderboard the last entry has the minimum
score. -/
theorem sortedDesc_getLast?_min (lb : List LeaderboardEntry)
    (e : LeaderboardEntry) (hs : SortedDesc lb) (h : lb.getLast? = some e) :
    ∀ x ∈ lb, e.score ≤ x.score := by
  induction lb with
  | nil => simp at h
  | cons a t ih =>
      rcases hs with _ | ⟨ha, hp⟩
      cases t with
      | nil =>
          simp at h
          subst h
          intro x hx
          rw [List.mem_singleton] at hx
          subst hx
          exact le_refl _
      | cons b t' =>
          rw [List.getLast?_cons_cons] at h
          intro x hx
          rcases List.mem_cons.mp hx with hx | hx
          · subst hx
            exact le_trans (ih hp h _ (getLast?_mem _ _ h)) (ha _ (getLast?_mem _ _ h))
          · exact ih hp h x hx

/-- The scenario entries of C5: only the score field matters for
ranking. -/
def scoreOnlyEntry (s : Int) : LeaderboardEntry :=
  { score := s, time := "", moves := 0, difficulty := "easy", date := "" }

/-- C5: `checkHighScore` is true exactly when fewer than 5 entries exist
or the score strictly exceeds the lowest-ranked (last) entry's score;
a submission leaves the leaderboard sorted descending with at most 5
entries; and the scenario `[1500, 1000, 500] + 1200` produces
`[1500, 1200, 1000, 500]`. -/
theorem C5_leaderboard :
    (∀ (lb : List LeaderboardEntry) (score : Int),
        SortedDesc lb →
        (checkHighScore lb score = true ↔
          (lb.length < 5 ∨ ∃ low, lb.getLast? = some low ∧
            (∀ x ∈ lb, low.score ≤ x.score) ∧ low.score < score)))
    ∧ (∀ (lb : List LeaderboardEntry) (e : LeaderboardEntry),
        SortedDesc (saveToLeaderboard lb e)
        ∧ (saveToLeaderboard lb e).length ≤ 5)
    ∧ (saveToLeaderboard
         [scoreOnlyEntry 1500, scoreOnlyEntry 1000, scoreOnlyEntry 500]
         (scoreOnlyEntry 1200)).map LeaderboardEntry.score
        = [1500, 1200, 1000, 500]
    ∧ (saveToLeaderboard
         [scoreOnlyEntry 1500, scoreOnlyEntry 1000, scoreOnlyEntry 500]
         (scoreOnlyEntry 1200)).length = 4 := by
  refine ⟨?_, ?_,
    by simp [saveToLeaderboard, List.mergeSort, List.merge, scoreOnlyEntry,
             scoreDescBool],
    by simp [saveToLeaderboard, List.mergeSort, List.merge, scoreOnlyEntry,
             scoreDescBool]⟩
  · intro lb score hs
    unfold checkHighScore
    by_cases hlen : lb.length < 5
    · rw [if_pos hlen]
      simp [hlen]
    · rw [if_neg hlen]
      have hne : lb ≠ [] := by
        intro h
        subst h
        simp at hlen
      obtain ⟨e, he⟩ := getLast?_of_ne_nil lb hne
      rw [he]
      simp only [decide_eq_true_eq]
      constructor
      · intro hgt
        exact Or.inr ⟨e, rfl, sortedDesc_getLast?_min lb e hs he, hgt⟩
      · intro h
        rcases h with h | ⟨low, hlow, _, hlt⟩
        · exact absurd h hlen
        · injection hlow with hlow
          subst hlow
          exact hlt
  · intro lb e
    have htrans : ∀ (a b c : LeaderboardEntry), scoreDescBool a b = true →
        scoreDescBool b c = true → scoreDescBool a c = true := by
      intro a b c hab hbc
      simp only [scoreDescBool, decide_eq_true_eq] at hab hbc ⊢
      exact le_trans hbc hab
    have htotal : ∀ (a b : LeaderboardEntry),
        (scoreDescBool a b || scoreDescBool b a) = true := by
      intro a b
      simp only [scoreDescBool, Bool.or_eq_true, decide_eq_true_eq]
      exact le_total b.score a.score
    have hsorted := List.sorted_mergeSort htrans htotal (lb ++ [e])
    constructor
    · exact List.Pairwise.sublist (List.take_sublist 5 _)
        (hsorted.imp fun h => of_decide_eq_true h)
    · exact List.length_take_le 5 _

/-- C5 witness: `checkHighScore` accepts on the empty leaderboard. -/
theorem C5_leaderboard_witness : checkHighScore [] 0 = true :=
  (C5_leaderboard.1 [] 0 List.Pairwise.nil).mpr (Or.inl (by decide))

/-! ## Projection facts used by the invariant-preservation proof -/

theorem flipCard_gamePaused (st : GameState) (i now : Nat) :
    (flipCard st i now).state.gamePaused = st.gamePaused := by
  simp only [flipCard]
  repeat' split
  all_goals simp [apply_ite GameState.gamePaused]

theorem flipCard_matchedPairs (st : GameState) (i now : Nat) :
    (flipCard st i now).state.matchedPairs = st.matchedPairs := by
  simp only [flipCard]
  repeat' split
  all_goals simp [apply_ite GameState.matchedPairs]

theorem flipCard_currentDifficulty (st : GameState) (i now : Nat) :
    (flipCard st i now).state.currentDifficulty = st.currentDifficulty := by
  simp only [flipCard]
  repeat' split
  all_goals simp [apply_ite GameState.currentDifficulty]

theorem flipCard_gameActive_of_active (st : GameState) (i now : Nat)
    (h : st.gameActive = true) :
    (flipCard st i now).state.gameActive = true := by
  simp only [flipCard]
  repeat' split
  all_goals simp [h, apply_ite GameState.gameActive]

theorem flipCard_flippedCards_len (st : GameState) (i now : Nat)
    (h : st.flippedCards.length ≤ 2) :
    (flipCard st i now).state.flippedCards.length ≤ 2 := by
  simp only [flipCard]
  repeat' split
  all_goals simp [apply_ite GameState.flippedCards, apply_ite List.length]
  all_goals simp_all

theorem matchCallback_flippedCards (st : GameState) (i j now : Nat)
    (date : String) : (matchCallback st i j now date).flippedCards = [] := by
  simp only [matchCallback]
  repeat' split
  all_goals simp

theorem matchCallback_matchedPairs (st : GameState) (i j now : Nat)
    (date : String) :
    (matchCallback st i j now date).matchedPairs = st.matchedPairs + 1 := by
  simp only [matchCallback]
  repeat' split
  all_goals simp

theorem matchCallback_currentDifficulty (st : GameState) (i j now : Nat)
    (date : String) :
    (matchCallback st i j now date).currentDifficulty = st.currentDifficulty := by
  simp only [matchCallback]
  repeat' split
  all_goals simp

theorem matchCallback_gamePaused (st : GameState) (i j now : Nat)
    (date : String) :
    (matchCallback st i j now date).gamePaused = st.gamePaused := by
  simp only [matchCallback]
  repeat' split
  all_goals simp

theorem matchCallback_gameActive_noComplete (st : GameState) (i j now : Nat)
    (date : String) (h : ¬ completesGame st) :
    (matchCallback st i j now date).gameActive = st.gameActive := by
  unfold completesGame at h
  simp only [matchCallback, updateScore_currentDifficulty]
  cases hc : difficultyConfigs st.currentDifficulty with
  | none => simp [hc]
  | some c =>
      rw [hc] at h
      simp only [hc]
      rw [if_neg (by simpa using h)]
      simp

theorem pairLimit_congr (st st' : GameState)
    (hd : st'.currentDifficulty = st.currentDifficulty)
    (hm : st'.matchedPairs = st.matchedPairs) :
    pairLimit st' = pairLimit st := by
  unfold pairLimit
  rw [hd, hm]


theorem matchCallback_gameActive_complete (st : GameState) (i j now : Nat)
    (date : String) (c : DifficultyConfig)
    (hc : difficultyConfigs st.currentDifficulty = some c)
    (h : st.matchedPairs + 1 = c.pairs) :
    (matchCallback st i j now date).gameActive = false := by
  simp only [matchCallback, updateScore_currentDifficulty]
  simp only [hc]
  rw [if_pos (by simpa using h)]
  simp

/-- C6 (amended): every engine operation preserves the session invariant
(`flippedCards.length <= 2`, `matchedPairs <= pairCount`, `paused implies
active`) EXCEPT that (a) the match-resolution callback increments
`matchedPairs` unconditionally, so the pair bound needs
`matchedPairs < pairCount` beforehand (`matchCbGuard`), and (b) `endGame`
clears `gameActive` without clearing `gamePaused`, so any operation that
ends the game while the session is paused — a match callback completing
the final pair, a countdown tick expiring, or a direct end of game —
breaks `paused implies active` (`pausedEndGuard` excludes those). -/

theorem C6_invariant_preservation :
    ∀ (st : GameState) (op : Op),
      Inv st → matchCbGuard st op → pausedEndGuard st op →
      Inv (applyOp st op) := by
  intro st op hInv hmg hpg
  obtain ⟨h1, h2, h3⟩ := hInv
  cases op with
  | flipOp i now =>
      simp only [applyOp]
      refine ⟨flipCard_flippedCards_len st i now h1, ?_, ?_⟩
      · rw [flipCard_matchedPairs,
            pairLimit_congr st _ (flipCard_currentDifficulty st i now)
              (flipCard_matchedPairs st i now)]
        exact h2
      · intro hp
        rw [flipCard_gamePaused] at hp
        exact flipCard_gameActive_of_active st i now (h3 hp)
  | matchCbOp i j now date =>
      simp only [applyOp]
      simp only [matchCbGuard] at hmg
      simp only [pausedEndGuard] at hpg
      refine ⟨by rw [matchCallback_flippedCards]; simp, ?_, ?_⟩
      · rw [matchCallback_matchedPairs]
        unfold pairLimit at hmg ⊢
        rw [matchCallback_currentDifficulty]
        cases hc : difficultyConfigs st.currentDifficulty with
        | some c =>
            rw [hc] at hmg
            simp only [] at hmg ⊢
            omega
        | none =>
            simp only []
            rw [matchCallback_matchedPairs]
      · intro hp
        rw [matchCallback_gamePaused] at hp
        rw [matchCallback_gameActive_noComplete st i j now date (hpg hp)]
        exact h3 hp
  | noMatchCbOp i j =>
      simp only [applyOp]
      unfold noMatchCallback
      refine ⟨by simp, ?_, fun hp => h3 (by simpa using hp)⟩
      unfold pairLimit at h2 ⊢
      simpa using h2
  | countdownTickOp date =>
      simp only [applyOp]
      simp only [pausedEndGuard] at hpg
      unfold timeLimitTick
      split
      · rename_i htr
        split
        · rename_i t ht
          split_ifs with hexp
          · refine ⟨by simpa using h1, ?_, ?_⟩
            · rw [endGame_matchedPairs,
                  pairLimit_congr st _ (by simp) (by simp)]
              simpa using h2
            · intro hp
              exfalso
              have hp' : st.gamePaused = true := by simpa using hp
              exact (hpg hp') ⟨htr, t, ht, hexp⟩
          · refine ⟨by simpa using h1, ?_, fun hp => h3 (by simpa using hp)⟩
            unfold pairLimit at h2 ⊢
            simpa using h2
        · exact ⟨h1, h2, h3⟩
      · exact ⟨h1, h2, h3⟩
  | timerTickOp now =>
      simp only [applyOp]
      unfold timerTick
      split
      · refine ⟨by simpa using h1, ?_, fun hp => h3 (by simpa using hp)⟩
        unfold pairLimit at h2 ⊢
        simpa using h2
      · exact ⟨h1, h2, h3⟩
  | pauseOp now =>
      simp only [applyOp]
      unfold pauseGame
      split
      · exact ⟨h1, h2, h3⟩
      · rename_i hcond
        unfold stopTimer
        refine ⟨by simpa using h1, ?_, ?_⟩
        · unfold pairLimit at h2 ⊢
          simpa using h2
        · intro _
          simp only [Bool.or_eq_true, Bool.not_eq_true', not_or] at hcond
          simpa using hcond.1
  | resumeOp now =>
      simp only [applyOp]
      unfold resumeGame
      split
      · exact ⟨h1, h2, h3⟩
      · simp only []
        split <;>
          · unfold startTimeLimit
            split <;>
              exact ⟨by simpa using h1,
                     by unfold pairLimit at h2 ⊢; simpa using h2,
                     fun hp => by simp at hp⟩
  | endGameOp date =>
      simp only [applyOp]
      simp only [pausedEndGuard] at hpg
      refine ⟨by simpa using h1, ?_, ?_⟩
      · rw [endGame_matchedPairs, pairLimit_congr st _ (by simp) (by simp)]
        exact h2
      · intro hp
        rw [endGame_gamePaused, hpg] at hp
        exact absurd hp (by simp)
  | resetOp =>
      simp only [applyOp]
      unfold resetGame resetStats stopTimer
      refine ⟨by simp, ?_, fun hp => by simp at hp⟩
      unfold pairLimit
      split <;> simp
  | newGameOp js =>
      simp only [applyOp]
      unfold newGame resetStats stopTimer
      simp only []
      split <;>
        refine ⟨by simp, ?_, fun hp => by simp at hp⟩ <;>
          (unfold pairLimit; split <;> simp)
  | changeDifficultyOp name js =>
      simp only [applyOp]
      unfold changeDifficulty resetStats stopTimer
      simp only []
      split <;>
        refine ⟨by simp, ?_, fun hp => by simp at hp⟩ <;>
          (unfold pairLimit; split <;> simp)

/-- An easy-difficulty session, paused mid-game with the final matching
pair face-up and its match callback pending: seven pairs matched, cards
14 and 15 (both `"🎸"`) flipped.  Reached by flipping the last pair and
pressing pause within the 500ms reveal delay. -/
def exStC6 : GameState :=
  { cards := [{ id := 0, symbol := "🎯", isFlipped := true, isMatched := true },
              { id := 1, symbol := "🎯", isFlipped := true, isMatched := true },
              { id := 2, symbol := "🎲", isFlipped := true, isMatched := true },
              { id := 3, symbol := "🎲", isFlipped := true, isMatched := true },
              { id := 4, symbol := "🎪", isFlipped := true, isMatched := true },
              { id := 5, symbol := "🎪", isFlipped := true, isMatched := true },
              { id := 6, symbol := "🎨", isFlipped := true, isMatched := true },
              { id := 7, symbol := "🎨", isFlipped := true, isMatched := true },
              { id := 8, symbol := "🎭", isFlipped := true, isMatched := true },
              { id := 9, symbol := "🎭", isFlipped := true, isMatched := true },
              { id := 10, symbol := "🎮", isFlipped := true, isMatched := true },
              { id := 11, symbol := "🎮", isFlipped := true, isMatched := true },
              { id := 12, symbol := "🎵", isFlipped := true, isMatched := true },
              { id := 13, symbol := "🎵", isFlipped := true, isMatched := true },
              { id := 14, symbol := "🎸", isFlipped := true, isMatched := false },
              { id := 15, symbol := "🎸", isFlipped := true, isMatched := false }],
    flippedCards := [14, 15], matchedPairs := 7, moves := 9,
    startTime := some 1000, gameActive := true, gamePaused := true,
    pauseStartTime := some 8000, totalPauseTime := 0,
    currentDifficulty := "easy", timeLimit := some 291,
    timersRunning := false, timerText := "00:07", score := 0,
    leaderboard := [] }

/-- C6 counterexample: from the invariant-satisfying paused session
`exStC6`, the pending match callback fires, completes the game and runs
`endGame`, which clears `gameActive` while `gamePaused` stays `true` —
so the invariant `paused implies active` is NOT preserved. -/
theorem C6_invariant_counterexample :
    Inv exStC6 ∧ ¬ Inv (applyOp exStC6 (Op.matchCbOp 14 15 9000 "d")) := by
  refine ⟨by decide, ?_⟩
  intro hInv
  have hp : (applyOp exStC6 (Op.matchCbOp 14 15 9000 "d")).gamePaused = true := by
    simp only [applyOp]
    rw [matchCallback_gamePaused]
    rfl
  have ha := hInv.2.2 hp
  simp only [applyOp] at ha
  rw [matchCallback_gameActive_complete exStC6 14 15 9000 "d" easyConfig
      (by decide) (by decide)] at ha
  exact absurd ha (by simp)

/-- C6 witness: pausing an active session preserves the invariant. -/
theorem C6_invariant_preservation_witness :
    Inv (applyOp exStC2 (Op.pauseOp 3000)) :=
  C6_invariant_preservation exStC2 (Op.pauseOp 3000) (by decide) trivial trivial

/-- C7 (amended): pausing at `t1` and resuming at `t2` adds exactly
`t2 - t1` to `totalPauseTime` and leaves `moves` and `matchedPairs`
unchanged; but the remaining-seconds counter is NOT unchanged —
`resumeGame` restarts the countdown via `startTimeLimit`, which resets
`this.timeLimit` to the difficulty's full limit.  `pauseGame` itself
does leave the counter untouched. -/
theorem C7_pause_resume :
    ∀ (st : GameState) (t1 t2 : Nat) (config : DifficultyConfig),
      st.gameActive = true → st.gamePaused = false → t1 ≤ t2 →
      difficultyConfigs st.currentDifficulty = some config →
      (resumeGame (pauseGame st t1) t2).totalPauseTime =
        st.totalPauseTime + (t2 - t1)
      ∧ (resumeGame (pauseGame st t1) t2).moves = st.moves
      ∧ (resumeGame (pauseGame st t1) t2).matchedPairs = st.matchedPairs
      ∧ (resumeGame (pauseGame st t1) t2).timeLimit =
          some (config.timeLimit : Int)
      ∧ (pauseGame st t1).timeLimit = st.timeLimit := by
  intro st t1 t2 config hact hpause ht hcfg
  unfold pauseGame
  rw [hact, hpause]
  simp only [Bool.not_true, Bool.or_self, if_false]
  unfold stopTimer resumeGame
  simp only [Bool.not_false, if_false]
  unfold startTimeLimit
  simp [hcfg]

/-- A mid-game easy session whose countdown has already ticked down to
100 remaining seconds. -/
def exStC7 : GameState :=
  { cards := [], flippedCards := [], matchedPairs := 2, moves := 7,
    startTime := some 0, gameActive := true, gamePaused := false,
    pauseStartTime := none, totalPauseTime := 0, currentDifficulty := "easy",
    timeLimit := some 100, timersRunning := true, timerText := "03:20",
    score := 0, leaderboard := [] }

/-- C7 counterexample: pausing and resuming `exStC7` (counter at 100)
leaves the counter at 300 — the easy difficulty's full limit — not at
100, refuting "the remaining-seconds counter of the time-limit countdown
is unchanged by the pause/resume cycle itself". -/
theorem C7_pause_resume_counterexample :
    exStC7.timeLimit = some 100
    ∧ (resumeGame (pauseGame exStC7 10000) 15000).timeLimit = some 300
    ∧ (resumeGame (pauseGame exStC7 10000) 15000).timeLimit ≠
        exStC7.timeLimit := by
  decide

/-- C7 witness: the pause/resume bookkeeping at a concrete session. -/
theorem C7_pause_resume_witness :
    (resumeGame (pauseGame exStC7 10000) 15000).totalPauseTime =
      exStC7.totalPauseTime + 5000
    ∧ (resumeGame (pauseGame exStC7 10000) 15000).moves = exStC7.moves
    ∧ (resumeGame (pauseGame exStC7 10000) 15000).matchedPairs =
        exStC7.matchedPairs :=
  have h := C7_pause_resume exStC7 10000 15000 easyConfig rfl rfl
    (by omega) (by decide)
  ⟨h.1, h.2.1, h.2.2.1⟩

/-- C8 (amended): for every name outside `{easy, medium, hard}` the
difficulty table lookup yields no configuration, and `changeDifficulty`
fails (the deck rebuild throws on the missing config) — but only AFTER
having set `currentDifficulty` to the unknown name and reset the session
statistics, so the failed request does change session state. -/
theorem C8_unknown_difficulty :
    ∀ (name : String), name ≠ "easy" → name ≠ "medium" → name ≠ "hard" →
      difficultyConfigs name = none
      ∧ (∀ (st : GameState) (js : List Nat),
          (changeDifficulty st name js).2 = true
          ∧ (changeDifficulty st name js).1 =
              resetStats { st with currentDifficulty := name }) := by
  intro name h1 h2 h3
  have hc : difficultyConfigs name = none := by
    unfold difficultyConfigs
    rw [if_neg h1, if_neg h2, if_neg h3]
  refine ⟨hc, ?_⟩
  intro st js
  unfold changeDifficulty
  simp [hc]

/-- A plain mid-game session on the easy difficulty with some progress
recorded. -/
def exStC8 : GameState :=
  { cards := [], flippedCards := [], matchedPairs := 1, moves := 3,
    startTime := some 0, gameActive := true, gamePaused := false,
    pauseStartTime := none, totalPauseTime := 0, currentDifficulty := "easy",
    timeLimit := some 250, timersRunning := true, timerText := "00:50",
    score := 0, leaderboard := [] }

/-- C8 counterexample: `changeDifficulty` with the unknown name
`"extreme"` fails, yet the session state it leaves behind differs from
the original — `currentDifficulty` is now the unknown name and the
stats are reset — refuting "no session state is changed by the failed
request". -/
theorem C8_unknown_difficulty_counterexample :
    (changeDifficulty exStC8 "extreme" []).2 = true
    ∧ (changeDifficulty exStC8 "extreme" []).1.currentDifficulty = "extreme"
    ∧ exStC8.currentDifficulty = "easy"
    ∧ (changeDifficulty exStC8 "extreme" []).1.moves = 0
    ∧ exStC8.moves = 3
    ∧ (changeDifficulty exStC8 "extreme" []).1 ≠ exStC8 := by
  decide

/-- C8 witness: the amended statement at the name `"extreme"`. -/
theorem C8_unknown_difficulty_witness :
    difficultyConfigs "extreme" = none
    ∧ (changeDifficulty exStC8 "extreme" []).2 = true :=
  have h := C8_unknown_difficulty "extreme" (by decide) (by decide) (by decide)
  ⟨h.1, (h.2 exStC8 []).1⟩

/-- A parser standing in for the platform's `JSON.parse`: it succeeds on
the serialization of the empty leaderboard and throws (errors) on
anything else — in particular on a corrupt blob. -/
def strictParse (s : String) : Except String (List LeaderboardEntry) :=
  if s = "[]" then Except.ok []
  else Except.error "SyntaxError: Unexpected token"

/-- C9 (amended): an absent blob loads as the empty leaderboard (and so
does an empty string, which is falsy in JS); but a corrupt blob does NOT
load as the empty leaderboard — `loadLeaderboard` has no error handling
around `JSON.parse`, so the parse error propagates. -/
theorem C9_load_leaderboard :
    (∀ (parse : String → Except String (List LeaderboardEntry)),
        loadLeaderboard none parse = Except.ok []
        ∧ loadLeaderboard (some "") parse = Except.ok [])
    ∧ (∀ (parse : String → Except String (List LeaderboardEntry))
         (s e : String), s ≠ "" → parse s = Except.error e →
        loadLeaderboard (some s) parse = Except.error e) := by
  constructor
  · intro parse
    exact ⟨rfl, rfl⟩
  · intro parse s e hs hp
    unfold loadLeaderboard
    simp only []
    rw [if_neg hs, hp]

/-- C9 counterexample: loading the corrupt blob `"corrupt"` through a
`JSON.parse` that throws on it propagates the error instead of yielding
an empty leaderboard. -/
theorem C9_load_leaderboard_counterexample :
    loadLeaderboard (some "corrupt") strictParse =
      Except.error "SyntaxError: Unexpected token"
    ∧ loadLeaderboard (some "corrupt") strictParse ≠ Except.ok [] := by
  simp [loadLeaderboard, strictParse]

/-- C9 witness: the amended statement at the absent blob and at the
corrupt blob `"corrupt"`. -/
theorem C9_load_leaderboard_witness :
    loadLeaderboard none strictParse = Except.ok []
    ∧ loadLeaderboard (some "corrupt") strictParse =
        Except.error "SyntaxError: Unexpected token" :=
  ⟨(C9_load_leaderboard.1 strictParse).1,
   C9_load_leaderboard.2 strictParse "corrupt" _ (by decide) rfl⟩

/-- C10: `resetGame` (= `resetStats` + re-render, no reshuffle) zeroes
the counters, flags and timing fields but leaves `this.cards` untouched:
every card keeps its position, id, symbol, `isFlipped` and `isMatched` —
in particular cards matched before the reset stay matched.  `newGame`,
by contrast, rebuilds a freshly shuffled deck. -/
theorem C10_reset_preserves_deck :
    ∀ (st : GameState),
      (resetGame st).cards = st.cards
      ∧ (resetGame st).moves = 0
      ∧ (resetGame st).matchedPairs = 0
      ∧ (resetGame st).flippedCards = []
      ∧ (resetGame st).gameActive = false
      ∧ (resetGame st).gamePaused = false
      ∧ (resetGame st).startTime = none
      ∧ (resetGame st).pauseStartTime = none
      ∧ (resetGame st).totalPauseTime = 0
      ∧ (resetGame st).timeLimit = none
      ∧ (resetGame st).timersRunning = false
      ∧ (resetGame st).currentDifficulty = st.currentDifficulty
      ∧ (∀ (i : Nat) (c : Card), st.cards[i]? = some c → c.isMatched = true →
          ((resetGame st).cards[i]?).map Card.isMatched = some true)
      ∧ (∀ (js : List Nat) (config : DifficultyConfig),
          difficultyConfigs st.currentDifficulty = some config →
          ((newGame st js).1).cards = shuffledDeck config js) := by
  intro st
  refine ⟨rfl, rfl, rfl, rfl, rfl, rfl, rfl, rfl, rfl, rfl, rfl, rfl, ?_, ?_⟩
  · intro i c hc hm
    have hcards : (resetGame st).cards = st.cards := rfl
    rw [hcards, hc]
    simp [hm]
  · intro js config hcfg
    unfold newGame resetStats stopTimer
    simp [hcfg]

/-- C10 witness: resetting a session with a matched pair keeps the deck
and the matched flags. -/
theorem C10_reset_preserves_deck_witness :
    (resetGame exStC3).cards = exStC3.cards
    ∧ (resetGame exStC3).moves = 0
    ∧ ((resetGame exStC3).cards[0]?).map Card.isMatched = some true :=
  have h := C10_reset_preserves_deck exStC3
  ⟨h.1, h.2.1,
   h.2.2.2.2.2.2.2.2.2.2.2.2.1 0
     { id := 0, symbol := "🎯", isFlipped := true, isMatched := true }
     rfl rfl⟩

/-- C1 witness: the easy difficulty with a concrete draw sequence. -/
theorem C1_deck_build_and_shuffle_witness :
    (buildPairs easyConfig).length = 2 * easyConfig.pairs
    ∧ (fisherYates (buildPairs easyConfig)
         [15, 3, 7, 0, 2, 9, 1, 4, 5, 11, 2, 0, 1, 1, 0]).Perm
        (buildPairs easyConfig)
    ∧ (∀ s, s ∈ easyConfig.symbols → (buildPairs easyConfig).count s = 2) :=
  have h := C1_deck_build_and_shuffle "easy" easyConfig
    [15, 3, 7, 0, 2, 9, 1, 4, 5, 11, 2, 0, 1, 1, 0] (by decide)
  ⟨h.1, h.2.2.2.1, h.2.2.1⟩

end MemoryGame
